import Mathlib

/-!
Verification of the GridGuard backend risk-scoring core
(src/backend/app.py).

The Python code computes with IEEE-754 doubles; this development
abstracts them to exact rationals, and to real numbers where the code
takes a square root (math.sqrt in calculate_std).  All constants that
appear in the code (0.3, 0.6, 0.2, ...) are exact decimal literals, so
they are represented by the corresponding rationals.  Human-readable
strings produced by the code are represented by inductive datatypes
whose constructors carry the interpolated numeric values; a rendering
function maps the literal (non-interpolated) messages to the exact
strings of the source.

The global reference tables (neighborhoods, historical_outages), which
app.py loads from JSON files at startup, are passed explicitly as
parameters to the embedded functions.
-/

namespace GridGuard

open scoped Classical

/-- Weather-condition triple, used both for the historical records
(weather_conditions in historical_outages.json) and for the live
forecast produced by get_weather_forecast (keys temp, wind_speed,
precipitation). -/
structure WeatherConditions where
  temp : ℚ
  wind_speed : ℚ
  precipitation : ℚ
deriving DecidableEq

/-- One element of the historical_outages table: a neighborhood id, the
weather at the time, and whether an outage occurred. -/
structure OutageRecord where
  neighborhood_id : String
  weather_conditions : WeatherConditions
  outage_occurred : Bool
deriving DecidableEq

/-- One element of the neighborhoods table.  Only the fields the scoring
core reads are modelled (id, name, vulnerability_score,
infrastructure_age); lat and lng are consumed only by the weather HTTP
call, outside the scoring core. -/
structure Neighborhood where
  id : String
  name : String
  vulnerability_score : ℚ
  infrastructure_age : ℚ
deriving DecidableEq

/-- calculate_mean (app.py line 24): sum divided by length, 0 on the
empty list. -/
def calculate_mean (values : List ℚ) : ℚ :=
  if values = [] then 0 else values.sum / values.length

/-- calculate_std (app.py line 28): population standard deviation, 0
when fewer than 2 values.  The square root forces the result into ℝ. -/
noncomputable def calculate_std (values : List ℚ) : ℝ :=
  if values.length < 2 then 0
  else Real.sqrt (((values.map fun x => (x - calculate_mean values) ^ 2).sum : ℚ) / values.length)

/-- Similarity score between a historical weather record and the current
weather (app.py lines 155-164): weighted sum of per-dimension
closeness, weights 0.3 / 0.4 / 0.3 and scales 50 / 100 / 10. -/
def similarity_score (wc current : WeatherConditions) : ℚ :=
  (1 - min (|wc.temp - current.temp| / 50) 1) * 0.3
  + (1 - min (|wc.wind_speed - current.wind_speed| / 100) 1) * 0.4
  + (1 - min (|wc.precipitation - current.precipitation| / 10) 1) * 0.3

/-- The similar_conditions list built by the loop at app.py lines
150-170: every historical record whose similarity to the current
weather is strictly greater than 0.6, paired with that similarity. -/
def similar_conditions (history : List OutageRecord) (current : WeatherConditions) : List (OutageRecord × ℚ) :=
  history.filterMap fun o =>
    if similarity_score o.weather_conditions current > 0.6
    then some (o, similarity_score o.weather_conditions current)
    else none

/-- outage_probability (app.py lines 174-179): similarity-weighted
fraction of the qualifying records that had an outage, with a 0.5
default when the total weight is not positive. -/
def outage_probability (sc : List (OutageRecord × ℚ)) : ℚ :=
  if (sc.map fun s => s.2).sum > 0
  then ((sc.filter fun s => s.1.outage_occurred).map fun s => s.2).sum / (sc.map fun s => s.2).sum
  else 0.5

/-- The contribution of the pattern-matching step to the risk score
(app.py lines 173-182): probability times 40 when some record
qualifies, a flat 20 otherwise. -/
def historicalTerm (history : List OutageRecord) (current : WeatherConditions) : ℚ :=
  if similar_conditions history current ≠ []
  then outage_probability (similar_conditions history current) * 40
  else 20

/-- Temperature branch of the environmental risk chain (app.py lines
191-196), an ordered if/elif chain. -/
def temp_env (t : ℚ) : ℚ :=
  if t < -5 then 15
  else if t < 0 ∨ t > 35 then 10
  else if t > 30 then 5
  else 0

/-- Wind branch of the environmental risk chain (app.py lines 198-203). -/
def wind_env (w : ℚ) : ℚ :=
  if w > 60 then 20
  else if w > 50 then 15
  else if w > 35 then 10
  else 0

/-- Precipitation branch of the environmental risk chain (app.py lines
205-210). -/
def precip_env (p : ℚ) : ℚ :=
  if p > 4 then 15
  else if p > 3 then 10
  else if p > 2 then 5
  else 0

/-- env_risk (app.py lines 189-210): the three if/elif chains
accumulated into one value. -/
def env_risk (w : WeatherConditions) : ℚ :=
  temp_env w.temp + wind_env w.wind_speed + precip_env w.precipitation

/-- Infrastructure vulnerability term (app.py lines 215-219): looked up
in the neighborhoods table, silently 0 when the id is unknown. -/
def infraTerm (ns : List Neighborhood) (id : String) : ℚ :=
  match ns.find? fun n => n.id = id with
  | some n => (n.vulnerability_score / 10) * 10 + (n.infrastructure_age / 50) * 10
  | none => 0

/-- The risk-level bucketing used at app.py lines 235 and 362: below 40
Low, below 70 Moderate, otherwise High. -/
def risk_level (score : ℤ) : String :=
  if score < 40 then "Low" else if score < 70 then "Moderate" else "High"

/-- The concern phrase chosen in the Moderate branch of
generate_fallback_explanation (app.py lines 293-299).  Each constructor
carries the numeric value interpolated into the sentence. -/
inductive ModerateConcern where
  | highWinds (wind : ℚ)
  | freezing (temp : ℚ)
  | heavyPrecipitation (precip : ℚ)
  | generic
deriving DecidableEq

/-- The concern-and-action pair chosen in the High branch of
generate_fallback_explanation (app.py lines 303-314). -/
inductive HighConcern where
  | dangerousWinds (wind : ℚ)
  | extremeCold (temp : ℚ)
  | severePrecipitation (precip : ℚ)
  | generic
deriving DecidableEq

/-- Abstract syntax of the string returned by
generate_fallback_explanation: one constructor per score band, carrying
the neighborhood display name and every numeric value interpolated into
the template of that band.  Two Explanation values are equal exactly
when the rendered sentences are identical. -/
inductive Explanation where
  | low (name : String) (temp wind : ℚ)
  | moderate (name : String) (concern : ModerateConcern)
  | high (name : String) (concern : HighConcern)
deriving DecidableEq

/-- The score band an Explanation belongs to, as the risk-level string
its template opens with (Low risk / Moderate risk / High risk). -/
def Explanation.band : Explanation → String
  | .low _ _ _ => "Low"
  | .moderate _ _ => "Moderate"
  | .high _ _ => "High"

/-- generate_fallback_explanation (app.py lines 285-316): neighborhood
display name defaults to your area when the id is unknown; then one of
three templates chosen by the score thresholds 40 and 70, with the
concern phrase chosen by the ordered chains of the source. -/
def generate_fallback_explanation (ns : List Neighborhood) (id : String)
    (risk_score : ℤ) (weather : WeatherConditions) : Explanation :=
  let name := match ns.find? fun n => n.id = id with
    | some n => n.name
    | none => "your area"
  if risk_score < 40 then
    Explanation.low name weather.temp weather.wind_speed
  else if risk_score < 70 then
    Explanation.moderate name
      (if weather.wind_speed > 40 then ModerateConcern.highWinds weather.wind_speed
       else if weather.temp < 0 then ModerateConcern.freezing weather.temp
       else if weather.precipitation > 2 then ModerateConcern.heavyPrecipitation weather.precipitation
       else ModerateConcern.generic)
  else
    Explanation.high name
      (if weather.wind_speed > 50 then HighConcern.dangerousWinds weather.wind_speed
       else if weather.temp < -5 then HighConcern.extremeCold weather.temp
       else if weather.precipitation > 3 then HighConcern.severePrecipitation weather.precipitation
       else HighConcern.generic)

/-- The list of historical temperatures extracted at app.py line 77. -/
def historicalTemps (h : List OutageRecord) : List ℚ :=
  h.map fun r => r.weather_conditions.temp

/-- The list of historical wind speeds extracted at app.py line 78. -/
def historicalWinds (h : List OutageRecord) : List ℚ :=
  h.map fun r => r.weather_conditions.wind_speed

/-- The list of historical precipitations extracted at app.py line 79. -/
def historicalPrecip (h : List OutageRecord) : List ℚ :=
  h.map fun r => r.weather_conditions.precipitation

/-- temp_mean (app.py line 82). -/
def tempMean (h : List OutageRecord) : ℚ := calculate_mean (historicalTemps h)

/-- wind_mean (app.py line 85). -/
def windMean (h : List OutageRecord) : ℚ := calculate_mean (historicalWinds h)

/-- precip_mean (app.py line 88). -/
def precipMean (h : List OutageRecord) : ℚ := calculate_mean (historicalPrecip h)

/-- temp_std (app.py line 83): the sample standard deviation, replaced
by the fixed prior 10 when only one point is available. -/
noncomputable def tempStd (h : List OutageRecord) : ℝ :=
  if (historicalTemps h).length > 1 then calculate_std (historicalTemps h) else 10

/-- wind_std (app.py line 86), prior 15. -/
noncomputable def windStd (h : List OutageRecord) : ℝ :=
  if (historicalWinds h).length > 1 then calculate_std (historicalWinds h) else 15

/-- precip_std (app.py line 89), prior 1. -/
noncomputable def precipStd (h : List OutageRecord) : ℝ :=
  if (historicalPrecip h).length > 1 then calculate_std (historicalPrecip h) else 1

/-- temp_z (app.py line 92): absolute z-score of the current
temperature, defined as 0 when the standard deviation is not positive. -/
noncomputable def temp_z (current : WeatherConditions) (h : List OutageRecord) : ℝ :=
  if tempStd h > 0 then |((current.temp : ℝ) - (tempMean h : ℝ)) / tempStd h| else 0

/-- wind_z (app.py line 93). -/
noncomputable def wind_z (current : WeatherConditions) (h : List OutageRecord) : ℝ :=
  if windStd h > 0 then |((current.wind_speed : ℝ) - (windMean h : ℝ)) / windStd h| else 0

/-- precip_z (app.py line 94). -/
noncomputable def precip_z (current : WeatherConditions) (h : List OutageRecord) : ℝ :=
  if precipStd h > 0 then |((current.precipitation : ℝ) - (precipMean h : ℝ)) / precipStd h| else 0

/-- One factor string produced by detect_weather_anomaly or
calculate_risk_score.  Constructors carry the interpolated numeric
values; the literal messages render through AnomalyFactor.text below. -/
inductive AnomalyFactor where
  | unusuallyCold (current avg : ℚ)
  | unusuallyHot (current avg : ℚ)
  | unusuallyHighWinds (current avg : ℚ)
  | unusuallyHeavyPrecipitation (current avg : ℚ)
  | withinNormalRange
  | limitedHistoricalData
  | limitedHistoricalDataForArea
deriving DecidableEq

/-- Rendering of the factor messages of app.py.  The numeric
interpolations use the exact rational values (the source formats the
averages with one decimal place); the constant messages are
character-for-character those of the source. -/
def AnomalyFactor.text : AnomalyFactor → String
  | .unusuallyCold c a =>
      "Unusually cold temperature (" ++ toString c ++ " C vs avg " ++ toString a ++ " C)"
  | .unusuallyHot c a =>
      "Unusually hot temperature (" ++ toString c ++ " C vs avg " ++ toString a ++ " C)"
  | .unusuallyHighWinds c a =>
      "Unusually high winds (" ++ toString c ++ " km/h vs avg " ++ toString a ++ " km/h)"
  | .unusuallyHeavyPrecipitation c a =>
      "Unusually heavy precipitation (" ++ toString c ++ " mm vs avg " ++ toString a ++ " mm)"
  | .withinNormalRange => "Weather conditions within normal range"
  | .limitedHistoricalData => "Limited historical data available"
  | .limitedHistoricalDataForArea => "Limited historical data for this area"

/-- Temperature contribution to the anomaly score (app.py lines
100-107): +30 when the z-score exceeds 2, +15 when it exceeds 1. -/
noncomputable def tempAnomalyScore (current : WeatherConditions) (h : List OutageRecord) : ℤ :=
  if temp_z current h > 2 then 30 else if temp_z current h > 1 then 15 else 0

/-- Factor produced by the temperature branch (app.py lines 100-105):
only the strong case appends, with the direction chosen by comparing
the current temperature with the historical mean. -/
noncomputable def tempAnomalyFactors (current : WeatherConditions) (h : List OutageRecord) :
    List AnomalyFactor :=
  if temp_z current h > 2 then
    [if current.temp < tempMean h
     then AnomalyFactor.unusuallyCold current.temp (tempMean h)
     else AnomalyFactor.unusuallyHot current.temp (tempMean h)]
  else []

/-- Wind contribution to the anomaly score (app.py lines 109-113): +35
strong, +20 moderate. -/
noncomputable def windAnomalyScore (current : WeatherConditions) (h : List OutageRecord) : ℤ :=
  if wind_z current h > 2 then 35 else if wind_z current h > 1 then 20 else 0

/-- Factor produced by the wind branch (app.py lines 109-111). -/
noncomputable def windAnomalyFactors (current : WeatherConditions) (h : List OutageRecord) :
    List AnomalyFactor :=
  if wind_z current h > 2 then
    [AnomalyFactor.unusuallyHighWinds current.wind_speed (windMean h)]
  else []

/-- Precipitation contribution to the anomaly score (app.py lines
115-119): +25 strong, +15 moderate. -/
noncomputable def precipAnomalyScore (current : WeatherConditions) (h : List OutageRecord) : ℤ :=
  if precip_z current h > 2 then 25 else if precip_z current h > 1 then 15 else 0

/-- Factor produced by the precipitation branch (app.py lines 115-117). -/
noncomputable def precipAnomalyFactors (current : WeatherConditions) (h : List OutageRecord) :
    List AnomalyFactor :=
  if precip_z current h > 2 then
    [AnomalyFactor.unusuallyHeavyPrecipitation current.precipitation (precipMean h)]
  else []

/-- detect_weather_anomaly (app.py lines 67-127): neutral 50 with a
limited-data factor on an empty history; otherwise the three
per-dimension contributions accumulated in order, capped at 100, and
the factor list built in dimension order with a default
within-normal-range message when no strong anomaly fired. -/
noncomputable def detect_weather_anomaly (current : WeatherConditions)
    (historical : List OutageRecord) : ℤ × List AnomalyFactor :=
  if historical = [] then (50, [AnomalyFactor.limitedHistoricalData])
  else
    (min 100 (tempAnomalyScore current historical + windAnomalyScore current historical
        + precipAnomalyScore current historical),
     if tempAnomalyFactors current historical ++ windAnomalyFactors current historical
          ++ precipAnomalyFactors current historical = []
     then [AnomalyFactor.withinNormalRange]
     else tempAnomalyFactors current historical ++ windAnomalyFactors current historical
          ++ precipAnomalyFactors current historical)

/-- Python int() truncates toward zero: floor for nonnegative
arguments, ceiling for negative ones. -/
noncomputable def pyTrunc (x : ℝ) : ℤ :=
  if 0 ≤ x then ⌊x⌋ else ⌈x⌉

/-- The accumulated risk_score of calculate_risk_score (app.py lines
143-219) just before the final clamp, for a non-empty neighborhood
history: 40 percent of the anomaly score, plus the similarity-weighted
historical term, plus the environmental risk scaled by 0.2, plus the
infrastructure term. -/
noncomputable def rawRiskScore (ho : List OutageRecord) (ns : List Neighborhood)
    (id : String) (current : WeatherConditions) : ℝ :=
  ((detect_weather_anomaly current (ho.filter fun o => o.neighborhood_id = id)).1 : ℝ) * 0.4
  + ((historicalTerm (ho.filter fun o => o.neighborhood_id = id) current : ℚ) : ℝ)
  + ((env_risk current : ℚ) : ℝ) * 0.2
  + ((infraTerm ns id : ℚ) : ℝ)

/-- calculate_risk_score (app.py lines 129-223): filter the historical
table to the neighborhood; short-circuit to 30 with a limited-data
factor when nothing remains; otherwise clamp the accumulated score to
the range 5 to 95 and truncate to an integer, returning the anomaly
factor list unchanged. -/
noncomputable def calculate_risk_score (ho : List OutageRecord) (ns : List Neighborhood)
    (id : String) (current : WeatherConditions) : ℤ × List AnomalyFactor :=
  if ho.filter (fun o => o.neighborhood_id = id) = [] then
    (30, [AnomalyFactor.limitedHistoricalDataForArea])
  else
    (pyTrunc (min 95 (max 5 (rawRiskScore ho ns id current))),
     (detect_weather_anomaly current (ho.filter fun o => o.neighborhood_id = id)).2)

/-- One per-3-hour forecast interval of the weather provider response,
as read at app.py lines 49-51: main.temp, wind.speed in m/s, and the
optional rain field keyed 3h (missing treated as 0). -/
structure ForecastEntry where
  temp : ℚ
  wind_speed : ℚ
  rain3h : Option ℚ
deriving DecidableEq

/-- The failure modes of the weather provider call, all caught by the
blanket except clause at app.py line 58. -/
inductive WeatherApiFailure where
  | networkError
  | malformedResponse
  | timeout
deriving DecidableEq

/-- The outcome of the weather provider HTTP call: a parsed forecast
list, or any of the failures. -/
inductive WeatherApiResult where
  | success (entries : List ForecastEntry)
  | failure (kind : WeatherApiFailure)
deriving DecidableEq

/-- Round half to even at integer precision, the behavior of Python
round (ties of the underlying binary floats are abstracted to exact
rational ties). -/
def roundHalfEven (x : ℚ) : ℤ :=
  if x - ⌊x⌋ < 1 / 2 then ⌊x⌋
  else if 1 / 2 < x - ⌊x⌋ then ⌊x⌋ + 1
  else if ⌊x⌋ % 2 = 0 then ⌊x⌋ else ⌊x⌋ + 1

/-- Python round(x, 1): round to one decimal place. -/
def pyRound1 (x : ℚ) : ℚ := (roundHalfEven (x * 10) : ℚ) / 10

/-- get_weather_forecast (app.py lines 36-65), with the HTTP call
abstracted to its outcome: on success, aggregate the first 8 intervals
(mean temperature, mean wind converted from m/s to km/h by 3.6, summed
precipitation, each rounded to one decimal); on any failure, the fixed
fallback forecast. -/
def get_weather_forecast (result : WeatherApiResult) : WeatherConditions :=
  match result with
  | .success entries =>
      { temp := pyRound1 (calculate_mean ((entries.take 8).map fun f => f.temp)),
        wind_speed := pyRound1 (calculate_mean ((entries.take 8).map fun f => f.wind_speed) * 3.6),
        precipitation := pyRound1 ((entries.take 8).map fun f => f.rain3h.getD 0).sum }
  | .failure _ => { temp := 15, wind_speed := 25, precipitation := 1.5 }

/-- C9: on any failure of the weather provider call (network error,
malformed response, timeout), get_weather_forecast does not propagate
the error — it is a total function into WeatherConditions — and returns
exactly the fixed fallback forecast with temp 15.0, wind_speed 25.0 and
precipitation 1.5. -/
theorem weather_fallback_on_failure (k : WeatherApiFailure) :
    get_weather_forecast (WeatherApiResult.failure k) =
      { temp := 15, wind_speed := 25, precipitation := 1.5 } := rfl

/-- C2: when the historical table has no record for the requested
neighborhood, calculate_risk_score short-circuits to the score 30 and
the single factor whose rendering is the exact string
"Limited historical data for this area". -/
theorem empty_history_short_circuit (ho : List OutageRecord) (ns : List Neighborhood)
    (id : String) (current : WeatherConditions)
    (h : ho.filter (fun o => o.neighborhood_id = id) = []) :
    calculate_risk_score ho ns id current = (30, [AnomalyFactor.limitedHistoricalDataForArea])
    ∧ (calculate_risk_score ho ns id current).2.map AnomalyFactor.text =
        ["Limited historical data for this area"] := by
  constructor
  · unfold calculate_risk_score
    rw [if_pos h]
  · unfold calculate_risk_score
    rw [if_pos h]
    rfl

theorem empty_history_short_circuit_witness :
    calculate_risk_score [] [] "elm-street" { temp := 15, wind_speed := 25, precipitation := 1.5 }
      = (30, [AnomalyFactor.limitedHistoricalDataForArea]) :=
  (empty_history_short_circuit [] [] "elm-street"
    { temp := 15, wind_speed := 25, precipitation := 1.5 } rfl).1

/-- C7: the risk-level mapping uses the fixed thresholds 40 and 70 (Low
below 40, Moderate from 40 up to but excluding 70, High from 70), and
for every integer score the band of the fallback explanation agrees
with that mapping. -/
theorem risk_level_thresholds (s : ℤ) (ns : List Neighborhood) (id : String)
    (w : WeatherConditions) :
    (risk_level s = "Low" ↔ s < 40)
    ∧ (risk_level s = "Moderate" ↔ 40 ≤ s ∧ s < 70)
    ∧ (risk_level s = "High" ↔ 70 ≤ s)
    ∧ (generate_fallback_explanation ns id s w).band = risk_level s := by
  refine ⟨?_, ?_, ?_, ?_⟩
  · unfold risk_level
    split_ifs with h1 h2
    · exact iff_of_true rfl h1
    · exact iff_of_false (by decide) h1
    · exact iff_of_false (by decide) h1
  · unfold risk_level
    split_ifs with h1 h2
    · exact iff_of_false (by decide) (by omega)
    · exact iff_of_true rfl (by omega)
    · exact iff_of_false (by decide) (by omega)
  · unfold risk_level
    split_ifs with h1 h2
    · exact iff_of_false (by decide) (by omega)
    · exact iff_of_false (by decide) (by omega)
    · exact iff_of_true rfl (by omega)
  · unfold generate_fallback_explanation risk_level
    split_ifs <;> rfl

/-- C8: the fallback explanation is a pure function whose dependence on
the risk score factors through the score band alone: two scores in the
same band, with the same weather and the same neighborhood reference,
produce the identical explanation (hence the identical rendered
string). -/
theorem fallback_depends_only_on_band (ns : List Neighborhood) (id : String)
    (s1 s2 : ℤ) (w : WeatherConditions) (hband : risk_level s1 = risk_level s2) :
    generate_fallback_explanation ns id s1 w = generate_fallback_explanation ns id s2 w := by
  unfold risk_level at hband
  unfold generate_fallback_explanation
  by_cases h1 : s1 < 40 <;> by_cases h2 : s2 < 40 <;>
    by_cases h3 : s1 < 70 <;> by_cases h4 : s2 < 70 <;>
    simp only [h1, h2, h3, h4, if_true, if_false, if_pos, if_neg, not_false_iff] at hband ⊢ <;>
    first
      | rfl
      | exact absurd hband (by decide)

theorem fallback_depends_only_on_band_witness :
    generate_fallback_explanation [] "elm-street" 10
        { temp := 15, wind_speed := 25, precipitation := 1.5 }
      = generate_fallback_explanation [] "elm-street" 20
        { temp := 15, wind_speed := 25, precipitation := 1.5 } :=
  fallback_depends_only_on_band [] "elm-street" 10 20
    { temp := 15, wind_speed := 25, precipitation := 1.5 } rfl

/-- C5: the environmental risk is the sum of three ordered, mutually
exclusive if/elif band chains — each later band applies only when every
earlier condition of its chain failed, so the first match wins (in
particular a temperature of -6 contributes exactly 15, not 25) — and
the summed environmental value enters the risk score scaled by 0.2. -/
theorem env_risk_band_chains (w : WeatherConditions) :
    env_risk w = temp_env w.temp + wind_env w.wind_speed + precip_env w.precipitation
    ∧ (w.temp < -5 → temp_env w.temp = 15)
    ∧ (¬ w.temp < -5 → (w.temp < 0 ∨ w.temp > 35) → temp_env w.temp = 10)
    ∧ (¬ w.temp < -5 → ¬ (w.temp < 0 ∨ w.temp > 35) → w.temp > 30 → temp_env w.temp = 5)
    ∧ (¬ w.temp < -5 → ¬ (w.temp < 0 ∨ w.temp > 35) → ¬ w.temp > 30 → temp_env w.temp = 0)
    ∧ (w.wind_speed > 60 → wind_env w.wind_speed = 20)
    ∧ (¬ w.wind_speed > 60 → w.wind_speed > 50 → wind_env w.wind_speed = 15)
    ∧ (¬ w.wind_speed > 60 → ¬ w.wind_speed > 50 → w.wind_speed > 35 → wind_env w.wind_speed = 10)
    ∧ (¬ w.wind_speed > 60 → ¬ w.wind_speed > 50 → ¬ w.wind_speed > 35 → wind_env w.wind_speed = 0)
    ∧ (w.precipitation > 4 → precip_env w.precipitation = 15)
    ∧ (¬ w.precipitation > 4 → w.precipitation > 3 → precip_env w.precipitation = 10)
    ∧ (¬ w.precipitation > 4 → ¬ w.precipitation > 3 → w.precipitation > 2 →
        precip_env w.precipitation = 5)
    ∧ (¬ w.precipitation > 4 → ¬ w.precipitation > 3 → ¬ w.precipitation > 2 →
        precip_env w.precipitation = 0)
    ∧ temp_env (-6) = 15
    ∧ (∀ ho ns id, rawRiskScore ho ns id w =
        ((detect_weather_anomaly w (ho.filter fun o => o.neighborhood_id = id)).1 : ℝ) * 0.4
        + ((historicalTerm (ho.filter fun o => o.neighborhood_id = id) w : ℚ) : ℝ)
        + ((env_risk w : ℚ) : ℝ) * 0.2
        + ((infraTerm ns id : ℚ) : ℝ)) := by
  refine ⟨rfl, ?_, ?_, ?_, ?_, ?_, ?_, ?_, ?_, ?_, ?_, ?_, ?_, by decide, fun ho ns id => rfl⟩
  · intro h; unfold temp_env; rw [if_pos h]
  · intro h1 h2; unfold temp_env; rw [if_neg h1, if_pos h2]
  · intro h1 h2 h3; unfold temp_env; rw [if_neg h1, if_neg h2, if_pos h3]
  · intro h1 h2 h3; unfold temp_env; rw [if_neg h1, if_neg h2, if_neg h3]
  · intro h; unfold wind_env; rw [if_pos h]
  · intro h1 h2; unfold wind_env; rw [if_neg h1, if_pos h2]
  · intro h1 h2 h3; unfold wind_env; rw [if_neg h1, if_neg h2, if_pos h3]
  · intro h1 h2 h3; unfold wind_env; rw [if_neg h1, if_neg h2, if_neg h3]
  · intro h; unfold precip_env; rw [if_pos h]
  · intro h1 h2; unfold precip_env; rw [if_neg h1, if_pos h2]
  · intro h1 h2 h3; unfold precip_env; rw [if_neg h1, if_neg h2, if_pos h3]
  · intro h1 h2 h3; unfold precip_env; rw [if_neg h1, if_neg h2, if_neg h3]

theorem env_risk_band_chains_witness :
    temp_env ((-6 : ℚ)) = 15 :=
  (env_risk_band_chains { temp := -6, wind_speed := 0, precipitation := 0 }).2.1 (by decide)

/-- Characterization of membership in the similar_conditions list: the
record comes from the history, the attached weight is its similarity to
the current weather, and that similarity is strictly above 0.6. -/
theorem mem_similar_conditions {history : List OutageRecord} {current : WeatherConditions}
    {p : OutageRecord × ℚ} (hp : p ∈ similar_conditions history current) :
    p.1 ∈ history ∧ p.2 = similarity_score p.1.weather_conditions current ∧ p.2 > 0.6 := by
  unfold similar_conditions at hp
  rw [List.mem_filterMap] at hp
  obtain ⟨a, ha, hfa⟩ := hp
  by_cases hs : similarity_score a.weather_conditions current > 0.6
  · rw [if_pos hs] at hfa
    cases hfa
    exact ⟨ha, rfl, hs⟩
  · rw [if_neg hs] at hfa
    exact absurd hfa (by simp)

/-- C6: a historical record qualifies for the pattern-matching step
only when its weighted similarity is strictly greater than 0.6 — a
record whose similarity is exactly 0.6 is excluded — and the step adds
probability times 40 when some record qualifies, a flat 20 when none
does. -/
theorem similarity_strict_threshold (history : List OutageRecord)
    (current : WeatherConditions) :
    (∀ o ∈ history, similarity_score o.weather_conditions current = 0.6 →
      ∀ s : ℚ, (o, s) ∉ similar_conditions history current)
    ∧ (∀ p ∈ similar_conditions history current,
        p.1 ∈ history ∧ p.2 = similarity_score p.1.weather_conditions current ∧ p.2 > 0.6)
    ∧ (similar_conditions history current ≠ [] →
        historicalTerm history current =
          outage_probability (similar_conditions history current) * 40)
    ∧ (similar_conditions history current = [] → historicalTerm history current = 20) := by
  refine ⟨?_, fun p hp => mem_similar_conditions hp, ?_, ?_⟩
  · intro o ho heq s hmem
    have h := (mem_similar_conditions hmem).2
    obtain ⟨h2, h3⟩ := h
    rw [h2, heq] at h3
    exact lt_irrefl _ h3
  · intro h
    unfold historicalTerm
    rw [if_pos h]
  · intro h
    unfold historicalTerm
    rw [if_neg (not_not_intro h)]

theorem similarity_strict_threshold_witness :
    ((⟨"n1", ⟨0, 100, 0⟩, true⟩ : OutageRecord), (0.6 : ℚ)) ∉
      similar_conditions [⟨"n1", ⟨0, 100, 0⟩, true⟩] ⟨0, 0, 0⟩ :=
  (similarity_strict_threshold [⟨"n1", ⟨0, 100, 0⟩, true⟩] ⟨0, 0, 0⟩).1
    ⟨"n1", ⟨0, 100, 0⟩, true⟩ (by simp) (by norm_num [similarity_score]) 0.6

/-- C10: whenever some historical record qualifies (the
similar_conditions list is non-empty), the total similarity weight is
strictly positive, so outage_probability takes the weighted-fraction
branch and the 0.5 default for a zero denominator is unreachable. -/
theorem outage_probability_denominator_pos (history : List OutageRecord)
    (current : WeatherConditions)
    (hne : similar_conditions history current ≠ []) :
    0 < ((similar_conditions history current).map fun s => s.2).sum
    ∧ outage_probability (similar_conditions history current) =
        (((similar_conditions history current).filter fun s => s.1.outage_occurred).map
            fun s => s.2).sum
          / ((similar_conditions history current).map fun s => s.2).sum := by
  have hpos : 0 < ((similar_conditions history current).map fun s => s.2).sum := by
    apply List.sum_pos
    · intro x hx
      rw [List.mem_map] at hx
      obtain ⟨p, hp, rfl⟩ := hx
      have h := (mem_similar_conditions hp).2.2
      have h06 : (0 : ℚ) < 0.6 := by norm_num
      exact lt_trans h06 h
    · intro hmap
      exact hne (List.map_eq_nil_iff.mp hmap)
  refine ⟨hpos, ?_⟩
  unfold outage_probability
  rw [if_pos hpos]

theorem outage_probability_denominator_pos_witness :
    0 < ((similar_conditions [⟨"n1", ⟨15, 25, 1.5⟩, true⟩] ⟨15, 25, 1.5⟩).map
          fun s => s.2).sum :=
  (outage_probability_denominator_pos [⟨"n1", ⟨15, 25, 1.5⟩, true⟩] ⟨15, 25, 1.5⟩
    (by norm_num [similar_conditions, similarity_score]; simp)).1

/-- Mean of a non-empty constant list is that constant. -/
theorem calculate_mean_const {l : List ℚ} {c : ℚ} (hne : l ≠ []) (hall : ∀ x ∈ l, x = c) :
    calculate_mean l = c := by
  unfold calculate_mean
  rw [if_neg hne, List.sum_eq_card_nsmul l c hall, nsmul_eq_mul]
  have hlen : (l.length : ℚ) ≠ 0 := Nat.cast_ne_zero.mpr (List.length_pos.mpr hne).ne'
  field_simp

/-- Standard deviation of a constant list is 0. -/
theorem calculate_std_const {l : List ℚ} {c : ℚ} (hall : ∀ x ∈ l, x = c) :
    calculate_std l = 0 := by
  unfold calculate_std
  split_ifs with hlen
  · rfl
  · have hne : l ≠ [] := by
      intro hl
      subst hl
      simp at hlen
    have hmean := calculate_mean_const hne hall
    have hzero : (l.map fun x => (x - calculate_mean l) ^ 2).sum = 0 := by
      apply List.sum_eq_zero
      intro y hy
      rw [List.mem_map] at hy
      obtain ⟨x, hx, rfl⟩ := hy
      rw [hmean, hall x hx]
      ring
    rw [hzero]
    simp

/-- C3: for a non-empty history, the anomaly score is the sum of the
per-dimension contributions (temperature 30 strong / 15 moderate, wind
35 / 20, precipitation 25 / 15, with strong meaning z-score above 2 and
moderate z-score above 1) capped at 100; factor entries exist exactly
for the strong cases, concatenated in the order temperature, wind,
precipitation, with a single within-normal-range default when none
fired, so the factor list is never empty. -/
theorem detect_anomaly_structure (current : WeatherConditions) (h : List OutageRecord)
    (hne : h ≠ []) :
    (detect_weather_anomaly current h).1 =
      min 100 ((if temp_z current h > 2 then 30 else if temp_z current h > 1 then 15 else 0)
        + (if wind_z current h > 2 then 35 else if wind_z current h > 1 then 20 else 0)
        + (if precip_z current h > 2 then 25 else if precip_z current h > 1 then 15 else 0))
    ∧ (detect_weather_anomaly current h).2 =
        (if tempAnomalyFactors current h ++ windAnomalyFactors current h
              ++ precipAnomalyFactors current h = []
         then [AnomalyFactor.withinNormalRange]
         else tempAnomalyFactors current h ++ windAnomalyFactors current h
              ++ precipAnomalyFactors current h)
    ∧ (tempAnomalyFactors current h ≠ [] ↔ temp_z current h > 2)
    ∧ (windAnomalyFactors current h ≠ [] ↔ wind_z current h > 2)
    ∧ (precipAnomalyFactors current h ≠ [] ↔ precip_z current h > 2)
    ∧ (detect_weather_anomaly current h).2 ≠ [] := by
  refine ⟨?_, ?_, ?_, ?_, ?_, ?_⟩
  · unfold detect_weather_anomaly tempAnomalyScore windAnomalyScore precipAnomalyScore
    rw [if_neg hne]
  · unfold detect_weather_anomaly
    rw [if_neg hne]
  · unfold tempAnomalyFactors
    by_cases hz : temp_z current h > 2
    · rw [if_pos hz]
      exact iff_of_true (List.cons_ne_nil _ _) hz
    · rw [if_neg hz]
      exact iff_of_false (not_not_intro rfl) hz
  · unfold windAnomalyFactors
    by_cases hz : wind_z current h > 2
    · rw [if_pos hz]
      exact iff_of_true (List.cons_ne_nil _ _) hz
    · rw [if_neg hz]
      exact iff_of_false (not_not_intro rfl) hz
  · unfold precipAnomalyFactors
    by_cases hz : precip_z current h > 2
    · rw [if_pos hz]
      exact iff_of_true (List.cons_ne_nil _ _) hz
    · rw [if_neg hz]
      exact iff_of_false (not_not_intro rfl) hz
  · unfold detect_weather_anomaly
    rw [if_neg hne]
    split_ifs with hf
    · exact List.cons_ne_nil _ _
    · exact hf

theorem detect_anomaly_structure_witness :
    (detect_weather_anomaly ⟨15, 25, 1.5⟩ [⟨"n1", ⟨15, 25, 1.5⟩, false⟩]).2 ≠ [] :=
  (detect_anomaly_structure ⟨15, 25, 1.5⟩ [⟨"n1", ⟨15, 25, 1.5⟩, false⟩]
    (by simp)).2.2.2.2.2

/-- C4: with at least two historical records all carrying the same
weather (population standard deviation 0 in every dimension) and
current weather equal to that shared value (hence to the historical
mean), the anomaly score is 0 and the sole factor renders as the exact
string "Weather conditions within normal range". -/
theorem uniform_history_zero_anomaly (current w : WeatherConditions) (h : List OutageRecord)
    (hlen : 2 ≤ h.length) (hall : ∀ r ∈ h, r.weather_conditions = w)
    (hcur : current = w) :
    detect_weather_anomaly current h = (0, [AnomalyFactor.withinNormalRange])
    ∧ (detect_weather_anomaly current h).2.map AnomalyFactor.text =
        ["Weather conditions within normal range"] := by
  have hne : h ≠ [] := by
    intro hh
    subst hh
    simp at hlen
  have htemps : ∀ x ∈ historicalTemps h, x = w.temp := by
    intro x hx
    unfold historicalTemps at hx
    rw [List.mem_map] at hx
    obtain ⟨r, hr, rfl⟩ := hx
    rw [hall r hr]
  have hwinds : ∀ x ∈ historicalWinds h, x = w.wind_speed := by
    intro x hx
    unfold historicalWinds at hx
    rw [List.mem_map] at hx
    obtain ⟨r, hr, rfl⟩ := hx
    rw [hall r hr]
  have hprecs : ∀ x ∈ historicalPrecip h, x = w.precipitation := by
    intro x hx
    unfold historicalPrecip at hx
    rw [List.mem_map] at hx
    obtain ⟨r, hr, rfl⟩ := hx
    rw [hall r hr]
  have hts : tempStd h = 0 := by
    unfold tempStd
    rw [if_pos (by simpa [historicalTemps] using by omega : (historicalTemps h).length > 1)]
    exact calculate_std_const htemps
  have hws : windStd h = 0 := by
    unfold windStd
    rw [if_pos (by simpa [historicalWinds] using by omega : (historicalWinds h).length > 1)]
    exact calculate_std_const hwinds
  have hps : precipStd h = 0 := by
    unfold precipStd
    rw [if_pos (by simpa [historicalPrecip] using by omega : (historicalPrecip h).length > 1)]
    exact calculate_std_const hprecs
  have htz : temp_z current h = 0 := by
    unfold temp_z
    rw [hts, if_neg (lt_irrefl (0 : ℝ))]
  have hwz : wind_z current h = 0 := by
    unfold wind_z
    rw [hws, if_neg (lt_irrefl (0 : ℝ))]
  have hpz : precip_z current h = 0 := by
    unfold precip_z
    rw [hps, if_neg (lt_irrefl (0 : ℝ))]
  have hTs : tempAnomalyScore current h = 0 := by
    unfold tempAnomalyScore
    rw [htz, if_neg (by norm_num), if_neg (by norm_num)]
  have hWs : windAnomalyScore current h = 0 := by
    unfold windAnomalyScore
    rw [hwz, if_neg (by norm_num), if_neg (by norm_num)]
  have hPs : precipAnomalyScore current h = 0 := by
    unfold precipAnomalyScore
    rw [hpz, if_neg (by norm_num), if_neg (by norm_num)]
  have hTf : tempAnomalyFactors current h = [] := by
    unfold tempAnomalyFactors
    rw [htz, if_neg (by norm_num)]
  have hWf : windAnomalyFactors current h = [] := by
    unfold windAnomalyFactors
    rw [hwz, if_neg (by norm_num)]
  have hPf : precipAnomalyFactors current h = [] := by
    unfold precipAnomalyFactors
    rw [hpz, if_neg (by norm_num)]
  have hpair : detect_weather_anomaly current h = (0, [AnomalyFactor.withinNormalRange]) := by
    unfold detect_weather_anomaly
    rw [if_neg hne, hTs, hWs, hPs, hTf, hWf, hPf]
    norm_num
  exact ⟨hpair, by rw [hpair]; rfl⟩

theorem uniform_history_zero_anomaly_witness :
    detect_weather_anomaly ⟨10, 20, 1⟩ [⟨"n1", ⟨10, 20, 1⟩, false⟩, ⟨"n1", ⟨10, 20, 1⟩, true⟩]
      = (0, [AnomalyFactor.withinNormalRange]) :=
  (uniform_history_zero_anomaly ⟨10, 20, 1⟩ ⟨10, 20, 1⟩
    [⟨"n1", ⟨10, 20, 1⟩, false⟩, ⟨"n1", ⟨10, 20, 1⟩, true⟩]
    (by simp) (by simp) rfl).1

/-- C1: for every reference table, neighborhood id and weather input,
the risk score returned by calculate_risk_score is an integer between 5
and 95, and on the non-short-circuit path it is exactly the accumulated
score clamped to the interval from 5 to 95 and then truncated (Python
int, truncation toward zero, not rounding). -/
theorem risk_score_in_range (ho : List OutageRecord) (ns : List Neighborhood)
    (id : String) (current : WeatherConditions) :
    5 ≤ (calculate_risk_score ho ns id current).1
    ∧ (calculate_risk_score ho ns id current).1 ≤ 95
    ∧ (ho.filter (fun o => o.neighborhood_id = id) ≠ [] →
        (calculate_risk_score ho ns id current).1 =
          pyTrunc (min 95 (max 5 (rawRiskScore ho ns id current)))) := by
  unfold calculate_risk_score
  by_cases hh : ho.filter (fun o => o.neighborhood_id = id) = []
  · rw [if_pos hh]
    exact ⟨by norm_num, by norm_num, fun hc => absurd hh hc⟩
  · rw [if_neg hh]
    have hx5 : (5 : ℝ) ≤ min 95 (max 5 (rawRiskScore ho ns id current)) :=
      le_min (by norm_num) (le_max_left _ _)
    have hx95 : min 95 (max 5 (rawRiskScore ho ns id current)) ≤ 95 := min_le_left _ _
    have hfloor : pyTrunc (min 95 (max 5 (rawRiskScore ho ns id current))) =
        ⌊min 95 (max 5 (rawRiskScore ho ns id current))⌋ := by
      unfold pyTrunc
      rw [if_pos (le_trans (by norm_num) hx5)]
    refine ⟨?_, ?_, fun _ => rfl⟩
    · rw [hfloor]
      exact Int.le_floor.mpr (by exact_mod_cast hx5)
    · rw [hfloor]
      exact Int.floor_le_iff.mpr (by push_cast; linarith)

theorem risk_score_in_range_witness :
    (calculate_risk_score [⟨"n1", ⟨15, 25, 1.5⟩, false⟩] [] "n1" ⟨15, 25, 1.5⟩).1 =
      pyTrunc (min 95 (max 5 (rawRiskScore [⟨"n1", ⟨15, 25, 1.5⟩, false⟩] [] "n1"
        ⟨15, 25, 1.5⟩))) :=
  (risk_score_in_range [⟨"n1", ⟨15, 25, 1.5⟩, false⟩] [] "n1" ⟨15, 25, 1.5⟩).2.2 (by simp)

end GridGuard
